import Mathlib

/-!
Verification of the connection-pool and socket-lifecycle subsystem of
`pymongo/pool.py` (MongoDB driver pool). The Python source is shallowly
embedded: pure decision logic becomes Lean functions, the stateful pool
becomes explicit state passing over a `PoolState` record, exceptions become
`Except` values, and the monotonic clock is a rational number of seconds.
Credentials, raw sockets and command documents are abstracted to `Nat`
identifiers; only structure that the verified properties depend on is kept.
-/

namespace PoolModel

/-! ## Error taxonomy (pymongo.errors, as used by pool.py) -/

/-- Python exceptions that can arise inside the framed round-trip of
`SocketInfo.command` (the `try` block at pool.py:412-424). `socketTimeout`,
`sslTimedOut` and `socketError` are all instances of `socket.error`;
`otherBase` stands for a `BaseException` that is not a `socket.error`
(for example `KeyboardInterrupt`). -/
inductive PyExc where
  | operationFailure
  | socketTimeout
  | sslTimedOut
  | socketError
  | otherBase
deriving DecidableEq

/-- What `SocketInfo.command`'s exception handling finally raises. `original e`
means the incoming exception was re-raised unchanged (`raise error` in
`SocketInfo._raise_connection_failure`, pool.py:552). -/
inductive RaisedExc where
  | operationFailure
  | networkTimeout
  | autoReconnect
  | original (e : PyExc)
deriving DecidableEq

/-- `AutoReconnect` subclasses `ConnectionFailure`; `NetworkTimeout` does too.
`original e` is whatever Python class `e` was, never a driver connection
failure (the driver never raises its connection errors as raw socket or
base exceptions). -/
def RaisedExc.isConnectionFailure : RaisedExc → Bool
  | .networkTimeout => true
  | .autoReconnect => true
  | _ => false

/-- Whether a `PyExc` is an instance of `socket.error` (`socket.timeout` and
`ssl.SSLError` both subclass it). -/
def PyExc.isSocketError : PyExc → Bool
  | .socketTimeout => true
  | .sslTimedOut => true
  | .socketError => true
  | _ => false

/-- Module-level `_raise_connection_failure(address, error)`, pool.py:192-211:
`socket.timeout` becomes `NetworkTimeout`; an `SSLError` whose message says
timed out becomes `NetworkTimeout`; every other error becomes
`AutoReconnect`. -/
def raise_connection_failure_module (e : PyExc) : RaisedExc :=
  match e with
  | .socketTimeout => .networkTimeout
  | .sslTimedOut => .networkTimeout
  | _ => .autoReconnect

/-- Method `SocketInfo._raise_connection_failure(error)`, pool.py:534-552:
always `close()` the socket first; then a `socket.error` is translated by the
module-level helper while any other exception is re-raised as itself.
Returns (socket closed?, exception raised). -/
def raise_connection_failure_method (e : PyExc) : Bool × RaisedExc :=
  (true,
    if e.isSocketError then raise_connection_failure_module e
    else .original e)

/-- The exception handling of `SocketInfo.command`, pool.py:420-424:
`except OperationFailure: raise` (socket left open), `except BaseException as
error: self._raise_connection_failure(error)`. Returns
(socket closed?, exception raised). -/
def command_exc_handler (e : PyExc) : Bool × RaisedExc :=
  match e with
  | .operationFailure => (false, .operationFailure)
  | e => raise_connection_failure_method e

/-! ## `SocketInfo.command` pre-checks (pool.py:398-411) -/

/-- A read concern as seen by `command`: only `ok_for_legacy` is consulted. -/
structure ReadConcern where
  ok_for_legacy : Bool
deriving DecidableEq

/-- A write concern as seen by `command`: `acknowledged` drives the collation
check, `document` is what gets attached to the outgoing spec. A
`WriteConcern` object has no `__bool__`, so a non-`None` write concern is
always truthy in `if ... and write_concern:`. -/
structure WriteConcern where
  acknowledged : Bool
  document : Nat
deriving DecidableEq

/-- Outcome of the pre-check section of `SocketInfo.command`:
either `ConfigurationError` is raised before any network traffic, or the
command proceeds to the wire with `wcAttached` recording whether
`spec['writeConcern'] = write_concern.document` was executed
(pool.py:407-408). -/
inductive CmdPre where
  | configError
  | sent (wcAttached : Bool)
deriving DecidableEq

/-- `not (write_concern is None or write_concern.acknowledged or
collation is None)`, pool.py:403-404. -/
def unacked_with_collation (wc : Option WriteConcern) (collation : Option Nat) : Bool :=
  match wc with
  | none => false
  | some w => !w.acknowledged && collation.isSome

/-- The pre-check chain of `SocketInfo.command`, pool.py:398-411, over
`self.max_wire_version`, the read concern, the optional write concern and the
optional collation. Faithful to the `if/if/if/elif` structure of the
source. -/
def command_pre (max_wire_version : Nat) (read_concern : ReadConcern)
    (write_concern : Option WriteConcern) (collation : Option Nat) : CmdPre :=
  if max_wire_version < 4 && !read_concern.ok_for_legacy then
    .configError
  else if unacked_with_collation write_concern collation then
    .configError
  else if 5 ≤ max_wire_version && write_concern.isSome then
    .sent true
  else if max_wire_version < 5 && collation.isSome then
    .configError
  else
    .sent false

/-! ## Authentication reconciliation, `SocketInfo.check_auth`
(pool.py:493-513). Credentials are abstracted to `Nat`; the credential map's
values `set(itervalues(all_credentials))` arrive as the finset `cached`. The
two `for` loops discard every element of `authset - cached` after calling
`auth.logout`, and add every element of `cached - authset` after calling
`auth.authenticate`; their net effect on the mutable `self.authset` and the
sequences of logout/login calls are returned as finsets. -/

/-- `SocketInfo.check_auth`: returns (new authset, credentials logged out,
credentials logged in). The guard `if all_credentials or self.authset`
skips everything when both are empty. -/
def check_auth (authset : Finset Nat) (cached : Finset Nat) :
    Finset Nat × Finset Nat × Finset Nat :=
  if cached = ∅ ∧ authset = ∅ then
    (authset, ∅, ∅)
  else
    let logouts := authset \ cached
    let logins := cached \ authset
    ((authset \ logouts) ∪ logins, logouts, logins)

/-! ## SNI decision of `_configured_socket` (pool.py:648-656) -/

/-- Splits a character list at every dot (helper for `is_ip_address`). -/
def splitDots : List Char → List (List Char)
  | [] => [[]]
  | c :: rest =>
      match splitDots rest with
      | [] => [[c]]
      | g :: gs => if c = '.' then [] :: g :: gs else (c :: g) :: gs

/-- One dot-separated group of an IPv4 literal: up to three decimal digits
with value at most 255. -/
def octet_ok (cs : List Char) : Bool :=
  0 < cs.length && cs.length ≤ 3 && cs.all Char.isDigit &&
    cs.foldl (fun acc c => acc * 10 + (c.toNat - 48)) 0 ≤ 255

/-- Modelled from the spec: `is_ip_address` (pool.py:59-64) delegates to the
standard-library `ipaddress.ip_address` parser, which is not part of this
repository. Per spec section 4.1 the host counts as an IP literal when it is
a literal IPv4 or IPv6 address (RFC 6066 section 3): IPv4 is four
dot-separated decimal octets each at most 255; IPv6 is approximated as any
address containing a colon, which cannot occur in a hostname. -/
def is_ip_address (address : String) : Bool :=
  (let parts := splitDots address.data
   parts.length = 4 && parts.all octet_ok)
  || address.data.contains ':'

/-- The TLS wrap decision in `_configured_socket`, pool.py:651-656: the
`server_hostname` argument passed to `ssl_context.wrap_socket`, `none` when
the socket is wrapped without SNI. `haveSNI` is the module flag `_HAVE_SNI`. -/
def sni_server_hostname (haveSNI : Bool) (host : String) : Option String :=
  if haveSNI && !is_ip_address host then some host else none

/-! ## The pool state (class `Pool`, pool.py:673-900)

The pool is embedded as explicit state passing. One `SocketInfo` record keeps
the fields the pool consults: the identity `sock` of the underlying stream
(Python equality/hash of `SocketInfo` is equality of `self.sock`), the
`authset`, the `closed` flag, the monotonic `last_checkout` stamp in seconds,
and the generation stamp `pool_id` copied from the pool at creation.
`self.sockets` (a Python `set` used only via `pop` and `add`) becomes a list
with `pop` taking the head and `add` consing. The semaphore lives outside
`src` (thread_util); what the claims count is the number of `release()` calls
the pool code performs, which each result records in a `releases` field. -/

/-- The mutable per-socket state of `SocketInfo` that the pool reads or
writes (pool.py:348-371). -/
structure SocketInfo where
  sock : Nat
  authset : Finset Nat
  closed : Bool
  last_checkout : ℚ
  pool_id : Nat
deriving DecidableEq

/-- `SocketInfo.close` (pool.py:526-532): sets the flag and closes the raw
stream (the latter has no observable effect in the model). -/
def SocketInfo.close (s : SocketInfo) : SocketInfo :=
  { s with closed := true }

/-- The slice of `PoolOptions` that the pool's control flow consults. Times
are rational numbers; `max_idle_time_ms` is stored exactly as passed by the
caller (the source never rescales it). -/
structure PoolOptions where
  max_idle_time_ms : Option ℚ
  min_pool_size : Nat
deriving DecidableEq

/-- The mutable state of `Pool` (pool.py:674-705): the idle set
`self.sockets`, `self.active_sockets` (an `Int`: the source decrements it
without a floor), the generation counter `self.pool_id`, the owning process
id `self.pid`, the options, and `self._check_interval_seconds`
(default 1; `0` = always probe liveness, `none` = never). -/
structure PoolState where
  sockets : List SocketInfo
  active_sockets : Int
  pool_id : Nat
  pid : Nat
  opts : PoolOptions
  check_interval : Option ℚ
deriving DecidableEq

/-- `Pool.reset` (pool.py:707-715): under the lock bump the generation,
adopt the current pid, swap out the idle set and zero `active_sockets`; then
close every formerly idle record. Returns the new pool state and the list of
records it closed. -/
def Pool.reset (p : PoolState) (cur_pid : Nat) : PoolState × List SocketInfo :=
  ({ p with
      pool_id := p.pool_id + 1
      pid := cur_pid
      sockets := []
      active_sockets := 0 },
   p.sockets.map SocketInfo.close)

/-- Result of `Pool.return_socket`: the pool afterwards, the record as the
call left it, whether it was added back to the idle set, the idle records
closed by a fork-triggered `reset`, and how many semaphore `release()` calls
were performed. -/
structure RetResult where
  pool : PoolState
  sockAfter : SocketInfo
  added : Bool
  closedIdle : List SocketInfo
  releases : Nat
deriving DecidableEq

/-- `Pool.return_socket` (pool.py:846-859): on a pid mismatch `reset()` and
leave the record alone; otherwise close it if its generation is stale, or
add it to the idle set if it is not closed. In every branch the semaphore is
released once and `active_sockets` decremented once afterwards. -/
def Pool.return_socket (p : PoolState) (s : SocketInfo) (cur_pid : Nat) : RetResult :=
  if p.pid ≠ cur_pid then
    let r := Pool.reset p cur_pid
    { pool := { r.1 with active_sockets := r.1.active_sockets - 1 }
      sockAfter := s
      added := false
      closedIdle := r.2
      releases := 1 }
  else if s.pool_id ≠ p.pool_id then
    { pool := { p with active_sockets := p.active_sockets - 1 }
      sockAfter := s.close
      added := false
      closedIdle := []
      releases := 1 }
  else if s.closed then
    { pool := { p with active_sockets := p.active_sockets - 1 }
      sockAfter := s
      added := false
      closedIdle := []
      releases := 1 }
  else
    { pool := { p with
        sockets := s :: p.sockets
        active_sockets := p.active_sockets - 1 }
      sockAfter := s
      added := true
      closedIdle := []
      releases := 1 }

/-- `Pool.connect` minting one record (pool.py:732-762): a successful
`_configured_socket` plus handshake yields a fresh open `SocketInfo` stamped
with the pool's current generation and `last_checkout = _time()`; a
`socket.error` is surfaced as a connection failure. The argument is the
environment's outcome for this connection attempt: `some sid` connects a new
stream `sid`, `none` fails. -/
def Pool.connectOne (pool_id : Nat) (c : Option Nat) (now : ℚ) :
    Except Unit SocketInfo :=
  match c with
  | some sid => .ok { sock := sid, authset := ∅, closed := false,
                      last_checkout := now, pool_id := pool_id }
  | none => .error ()

/-- `Pool.remove_stale_sockets` (pool.py:717-730): under the lock, when
`max_idle_time_ms` is set, drop and close every idle record whose
`_time() - last_checkout` exceeds it; then connect new records until
`len(self.sockets) + self.active_sockets` reaches `min_pool_size`, adding
each to the idle set. `fresh` supplies the stream ids of the records the
warm-up loop mints. -/
def Pool.remove_stale_sockets (p : PoolState) (now : ℚ) (fresh : List Nat) :
    PoolState :=
  let p1 :=
    match p.opts.max_idle_time_ms with
    | none => p
    | some limit =>
        { p with sockets := p.sockets.filter (fun s => !(now - s.last_checkout > limit)) }
  let need : Nat :=
    ((p.opts.min_pool_size : Int) - ((p1.sockets.length : Int) + p1.active_sockets)).toNat
  let minted := (fresh.take need).map (fun sid =>
    SocketInfo.mk sid ∅ false now p1.pool_id)
  { p1 with sockets := minted ++ p1.sockets }

/-! ## Checkout (`Pool.get_socket` / `Pool._get_socket_no_auth`,
pool.py:764-844)

An execution's interaction with the outside world is captured by an
environment: the current process id, the current monotonic time (the checkout
runs fast enough that one timestamp serves every `_time()` call in it), the
semaphore's answer, the outcomes of the successive `connect()` attempts
(consumed in order), the `socket_closed` probe's answer in `_check`, and
whether `check_auth` and the caller's `with` body succeed. -/

/-- Environment of one checkout execution. -/
structure Env where
  cur_pid : Nat
  now : ℚ
  acquire_ok : Bool
  connects : List (Option Nat)
  probe_closed : Bool
  auth_ok : Bool
  body_ok : Bool

/-- Exceptions propagating out of the checkout protocol. The pool re-raises
`check_auth` failures and the caller's own exception unchanged; both
semaphore-timeout and connect failures are `ConnectionFailure`s. -/
inductive GErr where
  | waitQueueTimeout
  | connectionFailure
  | authFailure
  | callerFailure
deriving DecidableEq

/-- `Pool._check` (pool.py:861-889): when the check interval allows (interval
is `0`, or the record has been idle longer than the interval), probe the
stream with `socket_closed`; a dead stream is closed and replaced by
`connect()`. Consumes at most one element of `connects`. Returns the surviving
or replacement record, or the replacement's connection failure. -/
def Pool.checkStep (p : PoolState) (cs : List (Option Nat)) (e : Env)
    (s : SocketInfo) : Except GErr SocketInfo :=
  let probe :=
    match p.check_interval with
    | none => false
    | some interval =>
        (interval = 0 || e.now - s.last_checkout > interval) && e.probe_closed
  if probe then
    match cs with
    | [] => .error .connectionFailure
    | c :: _ =>
        match Pool.connectOne p.pool_id c e.now with
        | .ok s2 => .ok s2
        | .error _ => .error .connectionFailure
  else
    .ok s

/-- Lines 817-835 of `Pool._get_socket_no_auth`, the body of the inner `try`:
pop an idle record or `connect()` one; if `max_idle_time_ms` is set and the
record's idle age exceeds it, close it and `connect()` a replacement; finally
run `_check` when the record came from the pool. Returns the idle set after
the pop together with the record or the propagated failure. Only
`self.sockets` is mutated here; the accounting fields are handled by the
caller. -/
def Pool.obtainSocket (p : PoolState) (e : Env) :
    List SocketInfo × Except GErr SocketInfo :=
  -- pop from the idle set, or mint (`except KeyError: connect()`)
  let step1 : List SocketInfo × List (Option Nat) ×
      Except GErr (SocketInfo × Bool) :=
    match p.sockets with
    | s :: rest => (rest, e.connects, .ok (s, true))
    | [] =>
        match e.connects with
        | [] => ([], [], .error .connectionFailure)
        | c :: cs =>
            match Pool.connectOne p.pool_id c e.now with
            | .ok s => ([], cs, .ok (s, false))
            | .error _ => ([], cs, .error .connectionFailure)
  match step1 with
  | (socks, _, .error err) => (socks, .error err)
  | (socks, cs, .ok (s, from_pool)) =>
      -- `if self.opts.max_idle_time_ms is not None: ...` (pool.py:826-831)
      let step2 : List (Option Nat) × Except GErr (SocketInfo × Bool) :=
        match p.opts.max_idle_time_ms with
        | none => (cs, .ok (s, from_pool))
        | some limit =>
            if e.now - s.last_checkout > limit then
              match cs with
              | [] => (cs, .error .connectionFailure)
              | c :: cs2 =>
                  match Pool.connectOne p.pool_id c e.now with
                  | .ok s2 => (cs2, .ok (s2, false))
                  | .error _ => (cs2, .error .connectionFailure)
            else (cs, .ok (s, from_pool))
      match step2 with
      | (_, .error err) => (socks, .error err)
      | (cs2, .ok (s2, from_pool2)) =>
          if from_pool2 then
            match Pool.checkStep p cs2 e s2 with
            | .ok s3 => (socks, .ok s3)
            | .error err => (socks, .error err)
          else (socks, .ok s2)

/-- Result of `_get_socket_no_auth` and of `get_socket`. -/
structure GsResult where
  pool : PoolState
  releases : Nat
  acquired : Bool
  out : Except GErr SocketInfo

/-- The part of `Pool._get_socket_no_auth` after the fork check
(pool.py:809-844): semaphore acquire (raising the wait-queue timeout on
failure), `active_sockets += 1`, then the inner `try` whose failure releases
the semaphore and decrements `active_sockets` before re-raising. On success
the record is stamped with `last_checkout = _time()`. -/
def Pool.getSocketNoAuthOwned (p : PoolState) (e : Env) : GsResult :=
  if e.acquire_ok = false then
    { pool := p, releases := 0, acquired := false, out := .error .waitQueueTimeout }
  else
    let p1 := { p with active_sockets := p.active_sockets + 1 }
    match Pool.obtainSocket p1 e with
    | (socks, .ok s) =>
        { pool := { p1 with sockets := socks }
          releases := 0
          acquired := true
          out := .ok { s with last_checkout := e.now } }
    | (socks, .error err) =>
        { pool := { p1 with
                      sockets := socks
                      active_sockets := p1.active_sockets - 1 }
          releases := 1
          acquired := true
          out := .error err }

/-- `Pool._get_socket_no_auth` (pool.py:801-844): the fork check
(`if self.pid != os.getpid(): self.reset()`) followed by the acquisition
protocol. -/
def Pool.getSocketNoAuth (p0 : PoolState) (e : Env) : GsResult :=
  Pool.getSocketNoAuthOwned
    (if p0.pid ≠ e.cur_pid then (Pool.reset p0 e.cur_pid).1 else p0) e

/-- `Pool.get_socket` (pool.py:764-799) for one complete `with` block:
obtain a record, reconcile authentication against the credential values
`creds`, hand the record to the caller's body, and on any exception — or on
normal exit when `checkout` is false — give it back through
`return_socket`. `out = .ok s` means the block completed, with `s` the
record as the caller last saw it. -/
def Pool.get_socket (p : PoolState) (e : Env) (creds : Finset Nat)
    (checkout : Bool) : GsResult :=
  let r := Pool.getSocketNoAuth p e
  match r.out with
  | .error err => { r with out := .error err }
  | .ok s =>
      if e.auth_ok = false then
        -- `check_auth` raised: `except: self.return_socket(sock_info); raise`
        let ret := Pool.return_socket r.pool s e.cur_pid
        { pool := ret.pool, releases := r.releases + ret.releases,
          acquired := r.acquired, out := .error .authFailure }
      else
        let s1 := { s with authset := (check_auth s.authset creds).1 }
        if e.body_ok = false then
          let ret := Pool.return_socket r.pool s1 e.cur_pid
          { pool := ret.pool, releases := r.releases + ret.releases,
            acquired := r.acquired, out := .error .callerFailure }
        else if checkout = false then
          let ret := Pool.return_socket r.pool s1 e.cur_pid
          { pool := ret.pool, releases := r.releases + ret.releases,
            acquired := r.acquired, out := .ok s1 }
        else
          { pool := r.pool, releases := r.releases,
            acquired := r.acquired, out := .ok s1 }

/-! ## Theorems -/

/-- C3: after a successful `check_auth` against credential values `cached`,
a credential is in the socket's authset iff it is a value of the credential
map; `auth.logout` is called exactly for the credentials in the old authset
but not in the map's values, and `auth.authenticate` exactly for the map
values not in the old authset. -/
theorem check_auth_reconciles (authset cached : Finset Nat) :
    (∀ c : Nat, c ∈ (check_auth authset cached).1 ↔ c ∈ cached) ∧
    (check_auth authset cached).2.1 = authset \ cached ∧
    (check_auth authset cached).2.2 = cached \ authset := by
  by_cases h : cached = ∅ ∧ authset = ∅
  · simp [check_auth, h, h.1, h.2]
  · refine ⟨fun c => ?_, ?_, ?_⟩ <;>
      simp only [check_auth, if_neg h, Finset.mem_union, Finset.mem_sdiff]
    tauto

/-- C4: the pre-check section of `SocketInfo.command` raises
`ConfigurationError` before any network traffic exactly when the peer's max
wire version is below 4 and the read concern is not legacy-compatible, or an
unacknowledged write concern is combined with a non-`None` collation, or a
collation is given against a peer with max wire version below 5; and
whenever the command does reach the wire, `writeConcern` was attached to the
outgoing spec exactly when the max wire version is at least 5 and a write
concern was given. -/
theorem command_pre_spec (mwv : Nat) (rc : ReadConcern)
    (wc : Option WriteConcern) (col : Option Nat) :
    (command_pre mwv rc wc col = .configError ↔
      ((mwv < 4 ∧ rc.ok_for_legacy = false) ∨
       (∃ w, wc = some w ∧ w.acknowledged = false ∧ col ≠ none) ∨
       (col ≠ none ∧ mwv < 5))) ∧
    (∀ b, command_pre mwv rc wc col = .sent b →
      (b = true ↔ (5 ≤ mwv ∧ wc ≠ none))) := by
  obtain ⟨legacy⟩ := rc
  rcases wc with _ | ⟨ack, doc⟩ <;> rcases col with _ | c <;> cases legacy <;>
    try cases ack
  all_goals
    simp only [command_pre, unacked_with_collation, Bool.not_true,
      Bool.not_false, Bool.and_true, Bool.and_false, Bool.true_and,
      Bool.false_and, Option.isSome_none, Option.isSome_some,
      decide_eq_true_eq]
  all_goals split_ifs <;> simp_all

/-- A witness for `command_pre_spec`: a collation with max wire version 3
is rejected, and a command at wire version 5 with a write concern attaches
it. -/
theorem command_pre_spec_witness :
    command_pre 3 ⟨true⟩ none (some 0) = .configError ∧
    ((true = true) ↔ (5 ≤ 5 ∧ (some (⟨true, 0⟩ : WriteConcern) ≠ none))) :=
  ⟨((command_pre_spec 3 ⟨true⟩ none (some 0)).1).2
      (Or.inr (Or.inr ⟨by decide, by decide⟩)),
   (command_pre_spec 5 ⟨true⟩ (some ⟨true, 0⟩) none).2 true (by decide)⟩

/-- C5 counterexample: a `BaseException` that is not a `socket.error` (for
example `KeyboardInterrupt`, here `PyExc.otherBase`) arising inside the
framed round-trip closes the socket but is re-raised as itself, which is not
a driver connection failure — refuting the claim that every
non-`OperationFailure` exception is re-raised as a connection failure. -/
theorem command_exc_not_always_connection_failure :
    (command_exc_handler .otherBase).1 = true ∧
    (command_exc_handler .otherBase).2 = .original .otherBase ∧
    (command_exc_handler .otherBase).2.isConnectionFailure = false := by
  decide

/-- C5 amended: an `OperationFailure` propagates with the socket left open;
any other exception first closes the socket's stream; among those, a
`socket.error` is re-raised as a connection failure (`NetworkTimeout` for
socket timeouts and SSL timeout errors, `AutoReconnect`, a
`ConnectionFailure`, otherwise), while an exception that is not a
`socket.error` is re-raised unchanged after the close. -/
theorem command_exc_policy (e : PyExc) :
    (e = .operationFailure → command_exc_handler e = (false, .operationFailure)) ∧
    (e ≠ .operationFailure → (command_exc_handler e).1 = true) ∧
    (e.isSocketError = true →
      (command_exc_handler e).2.isConnectionFailure = true) ∧
    ((e = .socketTimeout ∨ e = .sslTimedOut) →
      (command_exc_handler e).2 = .networkTimeout) ∧
    (e ≠ .operationFailure → e.isSocketError = false →
      (command_exc_handler e).2 = .original e) := by
  cases e <;> decide

/-- A witness for `command_exc_policy`: a socket timeout closes the socket
and surfaces as `NetworkTimeout`. -/
theorem command_exc_policy_witness :
    (command_exc_handler .socketTimeout).1 = true ∧
    (command_exc_handler .socketTimeout).2 = .networkTimeout :=
  ⟨(command_exc_policy .socketTimeout).2.1 (by decide),
   (command_exc_policy .socketTimeout).2.2.2.1 (Or.inl rfl)⟩

/-- C9: under TLS, the hostname is passed as the SNI `server_hostname` to
the TLS wrap iff SNI is supported (`_HAVE_SNI`) and the host is not a
literal IPv4 or IPv6 address; for an IP-literal host the socket is wrapped
without SNI. -/
theorem sni_iff_supported_and_not_ip (haveSNI : Bool) (host : String) :
    (sni_server_hostname haveSNI host = some host ↔
      (haveSNI = true ∧ is_ip_address host = false)) ∧
    (is_ip_address host = true → sni_server_hostname haveSNI host = none) := by
  cases haveSNI <;> by_cases hip : is_ip_address host <;>
    simp [sni_server_hostname, hip]

/-- A witness for `sni_iff_supported_and_not_ip`: the IPv4 literal
`127.0.0.1` is wrapped without SNI even when SNI is available. -/
theorem sni_iff_witness :
    sni_server_hostname true "127.0.0.1" = none :=
  (sni_iff_supported_and_not_ip true "127.0.0.1").2 (by decide)

/-- C8: `reset(); reset()` is observably a single `reset()`: the idle set is
empty, `active_sockets` is zero and the owner pid is the current pid after
both, the records closed by the pair are exactly the records closed by the
single call, and every previously idle record is closed. -/
theorem reset_reset_eq_reset (p : PoolState) (cur_pid : Nat) :
    (Pool.reset (Pool.reset p cur_pid).1 cur_pid).1.sockets
        = (Pool.reset p cur_pid).1.sockets ∧
    (Pool.reset (Pool.reset p cur_pid).1 cur_pid).1.active_sockets
        = (Pool.reset p cur_pid).1.active_sockets ∧
    (Pool.reset (Pool.reset p cur_pid).1 cur_pid).1.pid
        = (Pool.reset p cur_pid).1.pid ∧
    (Pool.reset p cur_pid).2 ++ (Pool.reset (Pool.reset p cur_pid).1 cur_pid).2
        = (Pool.reset p cur_pid).2 ∧
    ((Pool.reset p cur_pid).2.all fun s => s.closed) = true := by
  simp [Pool.reset, SocketInfo.close, List.all_eq_true]

/-- C10: returning a socket from a process other than the pool's owner
resets the pool (generation bumped, idle set drained with every idle record
closed, `active_sockets` zeroed, pid adopted), leaves the record itself
neither closed nor pooled, and still releases the semaphore once and
decrements `active_sockets`, leaving it at `-1`. -/
theorem return_socket_fork (p : PoolState) (s : SocketInfo) (cur_pid : Nat)
    (h : p.pid ≠ cur_pid) :
    (Pool.return_socket p s cur_pid).pool.pool_id = p.pool_id + 1 ∧
    (Pool.return_socket p s cur_pid).pool.sockets = [] ∧
    (Pool.return_socket p s cur_pid).closedIdle
        = p.sockets.map SocketInfo.close ∧
    (Pool.return_socket p s cur_pid).sockAfter = s ∧
    (Pool.return_socket p s cur_pid).added = false ∧
    (Pool.return_socket p s cur_pid).releases = 1 ∧
    (Pool.return_socket p s cur_pid).pool.active_sockets = -1 ∧
    (Pool.return_socket p s cur_pid).pool.pid = cur_pid := by
  simp [Pool.return_socket, Pool.reset, h]

/-- A witness for `return_socket_fork`: a concrete pool owned by pid `1`
whose socket is returned from pid `2`. -/
theorem return_socket_fork_witness :
    (Pool.return_socket
        (⟨[⟨9, ∅, false, 0, 0⟩], 1, 0, 1, ⟨none, 0⟩, some 1⟩ : PoolState)
        (⟨5, ∅, false, 0, 0⟩ : SocketInfo) 2).pool.active_sockets = -1 ∧
    (Pool.return_socket
        (⟨[⟨9, ∅, false, 0, 0⟩], 1, 0, 1, ⟨none, 0⟩, some 1⟩ : PoolState)
        (⟨5, ∅, false, 0, 0⟩ : SocketInfo) 2).sockAfter.closed = false ∧
    (Pool.return_socket
        (⟨[⟨9, ∅, false, 0, 0⟩], 1, 0, 1, ⟨none, 0⟩, some 1⟩ : PoolState)
        (⟨5, ∅, false, 0, 0⟩ : SocketInfo) 2).releases = 1 := by
  have h := return_socket_fork
      (⟨[⟨9, ∅, false, 0, 0⟩], 1, 0, 1, ⟨none, 0⟩, some 1⟩ : PoolState)
      (⟨5, ∅, false, 0, 0⟩ : SocketInfo) 2 (by decide)
  exact ⟨h.2.2.2.2.2.2.1, by rw [h.2.2.2.1], h.2.2.2.2.2.1⟩

/-- C7 counterexample: when `return_socket` runs in a process other than the
pool's owner (pid `2` against owner pid `1`), a record whose generation (`3`)
differs from the pool's current generation (`5`) is neither closed nor
pooled — refuting the claim that `return_socket` closes, instead of pooling,
any record whose generation differs from the pool's current generation. -/
theorem return_socket_stale_not_always_closed :
    (⟨4, ∅, false, 0, 3⟩ : SocketInfo).pool_id ≠
      (⟨[], 0, 5, 1, ⟨none, 0⟩, some 1⟩ : PoolState).pool_id ∧
    (Pool.return_socket (⟨[], 0, 5, 1, ⟨none, 0⟩, some 1⟩ : PoolState)
        (⟨4, ∅, false, 0, 3⟩ : SocketInfo) 2).sockAfter.closed = false ∧
    (Pool.return_socket (⟨[], 0, 5, 1, ⟨none, 0⟩, some 1⟩ : PoolState)
        (⟨4, ∅, false, 0, 3⟩ : SocketInfo) 2).added = false := by
  decide

/-- C7 amended: every record added to the pool's idle set — by
`return_socket` or by the warm-up loop of `remove_stale_sockets` — has
generation equal to the pool's current generation and is not closed; and
`return_socket`, when invoked in the pool's owning process, closes instead
of pooling any record whose generation differs from the pool's current
generation (in a foreign process the record is merely not pooled). -/
theorem idle_set_generation_invariant (p : PoolState) (s : SocketInfo)
    (cur_pid : Nat) (now : ℚ) (fresh : List Nat) :
    ((Pool.return_socket p s cur_pid).added = true →
        s.pool_id = (Pool.return_socket p s cur_pid).pool.pool_id ∧
        s.closed = false ∧
        (Pool.return_socket p s cur_pid).pool.sockets = s :: p.sockets) ∧
    (p.pid = cur_pid → s.pool_id ≠ p.pool_id →
        (Pool.return_socket p s cur_pid).sockAfter.closed = true ∧
        (Pool.return_socket p s cur_pid).added = false) ∧
    (∀ x ∈ (Pool.return_socket p s cur_pid).pool.sockets,
        x ∈ p.sockets ∨ (x.pool_id = p.pool_id ∧ x.closed = false)) ∧
    (∀ x ∈ (Pool.remove_stale_sockets p now fresh).sockets,
        x ∈ p.sockets ∨ (x.pool_id = p.pool_id ∧ x.closed = false)) := by
  refine ⟨?_, ?_, ?_, ?_⟩
  · unfold Pool.return_socket
    split_ifs with h1 h2 h3 <;> simp_all
  · intro hpid hgen
    unfold Pool.return_socket
    split_ifs with h1 h2 h3 <;> simp_all [SocketInfo.close]
  · intro x hx
    unfold Pool.return_socket at hx
    split_ifs at hx with h1 h2 h3
    · exact absurd hx (List.not_mem_nil x)
    · exact Or.inl hx
    · exact Or.inl hx
    · rcases List.mem_cons.mp hx with rfl | hmem
      · exact Or.inr ⟨by simpa using h2, by simpa using h3⟩
      · exact Or.inl hmem
  · intro x hx
    rcases hm : p.opts.max_idle_time_ms with _ | limit
    all_goals
      simp only [Pool.remove_stale_sockets, hm, List.mem_append,
        List.mem_map] at hx
      rcases hx with ⟨sid, hsid, rfl⟩ | hx
      · exact Or.inr ⟨rfl, rfl⟩
      · first
          | exact Or.inl hx
          | exact Or.inl (List.mem_filter.mp hx).1

/-- A witness for `idle_set_generation_invariant`: in the owning process a
record of generation `3` returned to a pool at generation `5` is closed and
not pooled. -/
theorem idle_set_generation_invariant_witness :
    (Pool.return_socket (⟨[], 0, 5, 1, ⟨none, 0⟩, some 1⟩ : PoolState)
        (⟨4, ∅, false, 0, 3⟩ : SocketInfo) 1).sockAfter.closed = true ∧
    (Pool.return_socket (⟨[], 0, 5, 1, ⟨none, 0⟩, some 1⟩ : PoolState)
        (⟨4, ∅, false, 0, 3⟩ : SocketInfo) 1).added = false :=
  (idle_set_generation_invariant (⟨[], 0, 5, 1, ⟨none, 0⟩, some 1⟩ : PoolState)
      (⟨4, ∅, false, 0, 3⟩ : SocketInfo) 1 0 []).2.1 rfl (by decide)

/-- C1: the units mismatch of the idle-age eviction. The pool is built with
`max_idle_time_ms = 10` (milliseconds per the option's own documentation) and
holds one idle record whose `last_checkout` is one full second old — an idle
age of 1000 ms, far beyond the limit. The second checkout nevertheless
returns the very same record (stream `7`), because `_get_socket_no_auth`
compares the age in seconds (`_time()` is a seconds clock) directly against
the millisecond limit: `1 > 10` is false. The second conjunct shows the code
does evict once the age exceeds the limit read as seconds (11 seconds idle),
pinning the comparison's unit to seconds. -/
theorem max_idle_checkout_reuses_stale_socket :
    (Pool.getSocketNoAuth
        (⟨[⟨7, ∅, false, 0, 0⟩], 0, 0, 1, ⟨some 10, 0⟩, some 1⟩ : PoolState)
        (⟨1, 1, true, [some 99], false, true, true⟩ : Env)).out
      = Except.ok (⟨7, ∅, false, 1, 0⟩ : SocketInfo) ∧
    (Pool.getSocketNoAuth
        (⟨[⟨7, ∅, false, 0, 0⟩], 0, 0, 1, ⟨some 10, 0⟩, some 1⟩ : PoolState)
        (⟨1, 11, true, [some 99], false, true, true⟩ : Env)).out
      = Except.ok (⟨99, ∅, false, 11, 0⟩ : SocketInfo) := by
  constructor <;>
    norm_num [Pool.getSocketNoAuth, Pool.getSocketNoAuthOwned,
      Pool.obtainSocket, Pool.checkStep, Pool.connectOne]

/-- Helper: in the owning process, `return_socket` performs exactly one
semaphore release, decrements `active_sockets` by one, and leaves the pid and
generation untouched, in every branch. -/
theorem return_socket_same_pid (p : PoolState) (s : SocketInfo) (cur_pid : Nat)
    (h : p.pid = cur_pid) :
    (Pool.return_socket p s cur_pid).releases = 1 ∧
    (Pool.return_socket p s cur_pid).pool.active_sockets
        = p.active_sockets - 1 ∧
    (Pool.return_socket p s cur_pid).pool.pid = p.pid ∧
    (Pool.return_socket p s cur_pid).pool.pool_id = p.pool_id := by
  unfold Pool.return_socket
  split_ifs with h1 h2 h3 <;> simp_all

/-- Helper: semaphore and `active_sockets` accounting of
`_get_socket_no_auth` when no fork intervened: a successful return holds the
permit (releases nothing) and has incremented `active_sockets`; a failure
after a successful acquire has released exactly once and restored
`active_sockets`; a failed acquire touches neither. -/
theorem getSocketNoAuth_accounting (p : PoolState) (e : Env)
    (h : p.pid = e.cur_pid) :
    (Pool.getSocketNoAuth p e).acquired = e.acquire_ok ∧
    (Pool.getSocketNoAuth p e).pool.pid = p.pid ∧
    (Pool.getSocketNoAuth p e).pool.pool_id = p.pool_id ∧
    ((Pool.getSocketNoAuth p e).out.isOk = true →
        (Pool.getSocketNoAuth p e).releases = 0 ∧
        (Pool.getSocketNoAuth p e).acquired = true ∧
        (Pool.getSocketNoAuth p e).pool.active_sockets
            = p.active_sockets + 1) ∧
    ((Pool.getSocketNoAuth p e).out.isOk = false →
        ((Pool.getSocketNoAuth p e).acquired = true →
            (Pool.getSocketNoAuth p e).releases = 1) ∧
        ((Pool.getSocketNoAuth p e).acquired = false →
            (Pool.getSocketNoAuth p e).releases = 0) ∧
        (Pool.getSocketNoAuth p e).pool.active_sockets
            = p.active_sockets) := by
  have howned : Pool.getSocketNoAuth p e = Pool.getSocketNoAuthOwned p e := by
    simp [Pool.getSocketNoAuth, h]
  rw [howned]
  unfold Pool.getSocketNoAuthOwned
  by_cases ha : e.acquire_ok = false
  · simp [ha, Except.isOk, Except.toBool]
  · have ha2 : e.acquire_ok = true := by
      simpa using ha
    rw [if_neg ha]
    rcases hm : Pool.obtainSocket
        { p with active_sockets := p.active_sockets + 1 } e with ⟨socks, out⟩
    cases out <;> simp [hm, ha2, Except.isOk, Except.toBool]

/-- C2: across one complete `with pool.get_socket(...)` block with
`checkout=false` in a process that owns the pool, exactly one semaphore
permit is released whenever the acquire succeeded (the successful-return
path, the exception paths during obtain/liveness/connect, and the exception
paths during or after authentication all included), no permit is released
when the acquire itself failed, and the net change to `active_sockets`
across the checkout and its return is zero. -/
theorem get_socket_semaphore_balance (p : PoolState) (e : Env)
    (creds : Finset Nat) (h : p.pid = e.cur_pid) :
    ((Pool.get_socket p e creds false).acquired = true →
        (Pool.get_socket p e creds false).releases = 1) ∧
    ((Pool.get_socket p e creds false).acquired = false →
        (Pool.get_socket p e creds false).releases = 0) ∧
    (Pool.get_socket p e creds false).pool.active_sockets
        = p.active_sockets := by
  have hacc := getSocketNoAuth_accounting p e h
  have hretpid : (Pool.getSocketNoAuth p e).pool.pid = e.cur_pid := by
    rw [hacc.2.1, h]
  simp only [Pool.get_socket]
  rcases hout : (Pool.getSocketNoAuth p e).out with err | s <;>
    simp only [hout]
  · have hko := hacc.2.2.2.2 (by rw [hout]; rfl)
    exact ⟨fun hacq => hko.1 hacq, fun hacq => hko.2.1 hacq, hko.2.2⟩
  · have hok := hacc.2.2.2.1 (by rw [hout]; rfl)
    have hret1 := return_socket_same_pid (Pool.getSocketNoAuth p e).pool s
        e.cur_pid hretpid
    have hret2 := return_socket_same_pid (Pool.getSocketNoAuth p e).pool
        { s with authset := (check_auth s.authset creds).1 } e.cur_pid hretpid
    by_cases hauth : e.auth_ok = false
    · simp [hauth, hok.1, hok.2.1, hret1.1, hret1.2.1, hok.2.2]
    · by_cases hbody : e.body_ok = false
      · simp [hauth, hbody, hok.1, hok.2.1, hret2.1, hret2.2.1, hok.2.2]
      · simp [hauth, hbody, hok.1, hok.2.1, hret2.1, hret2.2.1, hok.2.2]

/-- A witness for `get_socket_semaphore_balance`: an empty pool owned by the
current pid, one successful connect, successful authentication and body —
the block releases its one permit and leaves `active_sockets` unchanged. -/
theorem get_socket_semaphore_balance_witness :
    (Pool.get_socket (⟨[], 0, 0, 1, ⟨none, 0⟩, some 1⟩ : PoolState)
        (⟨1, 0, true, [some 3], false, true, true⟩ : Env) ∅ false).releases
      = 1 ∧
    (Pool.get_socket (⟨[], 0, 0, 1, ⟨none, 0⟩, some 1⟩ : PoolState)
        (⟨1, 0, true, [some 3], false, true, true⟩ : Env) ∅
        false).pool.active_sockets = 0 :=
  ⟨(get_socket_semaphore_balance (⟨[], 0, 0, 1, ⟨none, 0⟩, some 1⟩ : PoolState)
      (⟨1, 0, true, [some 3], false, true, true⟩ : Env) ∅ rfl).1 rfl,
   (get_socket_semaphore_balance (⟨[], 0, 0, 1, ⟨none, 0⟩, some 1⟩ : PoolState)
      (⟨1, 0, true, [some 3], false, true, true⟩ : Env) ∅ rfl).2.2⟩

/-- C6: when authentication reconciliation fails during a checkout in the
owning process, the error propagates out of `get_socket` and the record —
its generation matching and itself not closed by the failure — is added back
to the idle set unused rather than closed. -/
theorem auth_failure_returns_socket_unused (p : PoolState) (e : Env)
    (creds : Finset Nat) (checkout : Bool) (s : SocketInfo)
    (hpid : p.pid = e.cur_pid) (hauth : e.auth_ok = false)
    (hok : (Pool.getSocketNoAuth p e).out = Except.ok s)
    (hgen : s.pool_id = p.pool_id) (hclosed : s.closed = false) :
    (Pool.get_socket p e creds checkout).out = Except.error GErr.authFailure ∧
    (Pool.get_socket p e creds checkout).pool.sockets
        = s :: (Pool.getSocketNoAuth p e).pool.sockets ∧
    s.closed = false := by
  have hacc := getSocketNoAuth_accounting p e hpid
  have hretpid : (Pool.getSocketNoAuth p e).pool.pid = e.cur_pid := by
    rw [hacc.2.1, hpid]
  have hgen2 : s.pool_id = (Pool.getSocketNoAuth p e).pool.pool_id := by
    rw [hacc.2.2.1, hgen]
  have hr : (Pool.return_socket (Pool.getSocketNoAuth p e).pool s
      e.cur_pid).pool.sockets
        = s :: (Pool.getSocketNoAuth p e).pool.sockets := by
    unfold Pool.return_socket
    rw [if_neg (by simp [hretpid]), if_neg (by simp [hgen2]),
      if_neg (by simp [hclosed])]
  simp only [Pool.get_socket, hok, hauth, reduceIte]
  simp [hr, hclosed]

/-- A witness for `auth_failure_returns_socket_unused`: a freshly connected
record is recycled into the idle set when `check_auth` fails. -/
theorem auth_failure_returns_socket_unused_witness :
    (Pool.get_socket (⟨[], 0, 0, 1, ⟨none, 0⟩, some 1⟩ : PoolState)
        (⟨1, 0, true, [some 4], false, false, true⟩ : Env) ∅ false).out
      = Except.error GErr.authFailure ∧
    (Pool.get_socket (⟨[], 0, 0, 1, ⟨none, 0⟩, some 1⟩ : PoolState)
        (⟨1, 0, true, [some 4], false, false, true⟩ : Env) ∅
        false).pool.sockets
      = [(⟨4, ∅, false, 0, 0⟩ : SocketInfo)] :=
  have h := auth_failure_returns_socket_unused
      (⟨[], 0, 0, 1, ⟨none, 0⟩, some 1⟩ : PoolState)
      (⟨1, 0, true, [some 4], false, false, true⟩ : Env) ∅ false
      (⟨4, ∅, false, 0, 0⟩ : SocketInfo) rfl rfl rfl rfl rfl
  ⟨h.1, by rw [h.2.1]; rfl⟩

end PoolModel
